import Mathlib

/-!
Shallow embedding of the ZombieRoolLauncher update/distribution engine
(Python sources under `main/`), together with proofs about its behaviour:
version comparison, the publish and delete catalog transactions, the
concurrent download barrier, the cancellable file fetch, the launcher
self-replacement flow, the update decision logic, and mod installation.
-/

namespace ZombieRool

/-! ## Definitions -/

/-! ### Version numbers

`QVersionNumber.fromString` parses the leading dot-separated decimal
segments of a string (stopping at the first non-numeric suffix);
comparison is numeric, segment by segment, with the shorter list smaller
when it is a proper prefix of the other.  A parsed version is a
`List Nat` of segments. -/

/-- Numeric value of a list of decimal digit characters. -/
def digitsToNat (ds : List Char) : Nat :=
  ds.foldl (fun a c => a * 10 + (c.toNat - 48)) 0

/-- Segment parser of `QVersionNumber.fromString` (fuel-indexed for
termination; the fuel is always sufficient at the call site below): read
a maximal run of digits, then continue past a single dot. -/
def parseSegmentsFuel : Nat → List Char → List Nat
  | 0, _ => []
  | fuel + 1, cs =>
    let ds := cs.takeWhile (fun c => c.isDigit)
    if ds.isEmpty then []
    else
      digitsToNat ds ::
        (match cs.dropWhile (fun c => c.isDigit) with
         | '.' :: rest => parseSegmentsFuel fuel rest
         | _ => [])

/-- Model of `QVersionNumber.fromString`: the list of numeric segments. -/
def versionFromString (s : String) : List Nat :=
  parseSegmentsFuel (s.length + 1) s.data

/-- Model of `QVersionNumber` comparison on segment lists: numeric
comparison segment by segment; when the common segments agree, the list
with more segments is the greater one. -/
def compareSegments : List Nat → List Nat → Ordering
  | [], [] => .eq
  | [], _ :: _ => .lt
  | _ :: _, [] => .gt
  | x :: xs, y :: ys =>
    if x < y then .lt else if y < x then .gt else compareSegments xs ys

/-- Comparison of two dotted version strings, as performed in the source
by `QVersionNumber.fromString` followed by the comparison operators. -/
def compareVersions (a b : String) : Ordering :=
  compareSegments (versionFromString a) (versionFromString b)

/-- `a <= b` on parsed versions, as used by the uploader's conflict
check (`new_version <= existing_version`). -/
def versionLe (a b : String) : Bool :=
  match compareVersions a b with
  | .gt => false
  | _ => true

/-! ### Catalog data model (`updates.json`)

The remote catalog document read and written by the GitHub worker
threads.  Optional fields model JSON keys that may be absent from the
document (`"maps" in updates_data`, `updates_data.get("admins", [])`). -/

/-- The `launcher` section of `updates.json`. -/
structure LauncherInfo where
  latest_version : String
  download_url : String
deriving DecidableEq, Repr

/-- The `mod` section of `updates.json`. -/
structure ModInfo where
  name : String
  latest_version : String
  download_url : String
  changelog_url : String
deriving DecidableEq, Repr

/-- One element of the `maps` array of `updates.json`. -/
structure MapEntry where
  id : String
  name : String
  latest_version : String
  download_url : String
  description : String
  author : String
  resourcepack_url : Option String
deriving DecidableEq, Repr

/-- One element of the `content_packs` array of `updates.json` (never
inspected by the flows under study). -/
structure ContentEntry where
  id : String
  name : String
  latest_version : String
  download_url : String
deriving DecidableEq, Repr

/-- The whole `updates.json` document. -/
structure UpdatesData where
  launcher : Option LauncherInfo
  mod : Option ModInfo
  maps : Option (List MapEntry)
  content_packs : Option (List ContentEntry)
  admins : Option (List String)
deriving DecidableEq, Repr

/-- Linear scan for the first map entry with a given id, as done by the
`for m in updates_data["maps"]` loops in `github_threads.py`. -/
def findMapById (maps : List MapEntry) (mapId : String) : Option MapEntry :=
  maps.find? (fun m => m.id == mapId)

/-! ### GitHubUploaderThread (publish transaction)

`GitHubUploaderThread.run` attaches the authenticated login as the map's
author, performs the version-conflict check against the
`remote_updates_data` passed to the thread, refuses duplicate release
tags, creates the release and uploads the assets, then rewrites
`updates.json` via `_update_remote_updates_json`.  Remote primitives
(release creation, asset upload) are abstracted as succeeding; their
resulting download URLs are inputs of the model. -/

/-- The map metadata collected from the publish dialog (`map_info`
before `run` attaches the author). -/
structure MapInfo where
  id : String
  name : String
  latest_version : String
  description : String
deriving DecidableEq, Repr

/-- Errors emitted via `error_occurred` by the uploader paths modelled
here. -/
inductive UploadError
  | versionConflict (mapId : String) (existingVersion newVersion : String)
  | duplicateReleaseTag (tag : String)
deriving DecidableEq, Repr

/-- Terminal outcome of `GitHubUploaderThread.run`: either an
`error_occurred` emission, or `upload_finished` together with the new
catalog pushed to GitHub and the entry written into it. -/
inductive UploadOutcome
  | error (e : UploadError)
  | finished (newCatalog : UpdatesData) (entry : MapEntry)
deriving DecidableEq, Repr

/-- The release tag `map-{id}-v{version}` derived from the map info. -/
def releaseTag (info : MapInfo) : String :=
  "map-" ++ info.id ++ "-v" ++ info.latest_version

/-- The skeleton document created when `updates.json` is absent (404),
with the uploader as initial admin. -/
def defaultSkeleton (login : String) : UpdatesData where
  launcher := some { latest_version := "0.0.0", download_url := "" }
  mod := some { name := "NomDuMod", latest_version := "0.0.0",
                download_url := "", changelog_url := "" }
  maps := some []
  content_packs := some []
  admins := some [login]

/-- The `new_map_entry` dict built in `_update_remote_updates_json`; its
`author` field is `map_info['author']`, which `run` set to the
authenticated login before the conflict check. -/
def buildNewMapEntry (login : String) (info : MapInfo) (mapAssetUrl : String)
    (rpProvided : Bool) (rpAssetUrl : String) : MapEntry where
  id := info.id
  name := info.name
  latest_version := info.latest_version
  download_url := mapAssetUrl
  description := info.description
  author := login
  resourcepack_url := if rpProvided then some rpAssetUrl else none

/-- The update-or-append loop of `_update_remote_updates_json`: replace
the first entry with the same id (then `break`), else append at the
end. -/
def upsertMapEntry : List MapEntry → MapEntry → List MapEntry
  | [], e => [e]
  | m :: rest, e =>
    if m.id == e.id then e :: rest else m :: upsertMapEntry rest e

/-- `_update_remote_updates_json`, given the parsed content fetched from
GitHub (`none` models a 404 on `updates.json`): ensure a `maps` array,
upsert the new entry, and push the document. -/
def updateRemoteUpdatesJson (login : String) (fetched : Option UpdatesData)
    (entry : MapEntry) : UpdatesData :=
  let updatesData := fetched.getD (defaultSkeleton login)
  { updatesData with maps := some (upsertMapEntry (updatesData.maps.getD []) entry) }

/-- `GitHubUploaderThread.run` after successful authentication.
`remoteUpdatesData` is the `remote_updates_data` handed to the thread
for the conflict check; `existingTags` are the git tags present on the
repository; `fetched` is what `_update_remote_updates_json` reads back
from GitHub. -/
def uploaderRun (login : String) (remoteUpdatesData : Option UpdatesData)
    (existingTags : List String) (fetched : Option UpdatesData)
    (info : MapInfo) (mapAssetUrl : String) (rpProvided : Bool)
    (rpAssetUrl : String) : UploadOutcome :=
  let existingMap :=
    match remoteUpdatesData with
    | some d => findMapById (d.maps.getD []) info.id
    | none => none
  let conflict :=
    match existingMap with
    | some m => versionLe info.latest_version m.latest_version
    | none => false
  if conflict then
    .error (.versionConflict info.id
      ((existingMap.map MapEntry.latest_version).getD "") info.latest_version)
  else if existingTags.contains (releaseTag info) then
    .error (.duplicateReleaseTag (releaseTag info))
  else
    let entry := buildNewMapEntry login info mapAssetUrl rpProvided rpAssetUrl
    .finished (updateRemoteUpdatesJson login fetched entry) entry

/-- The catalog a publish outcome pushed to GitHub, if any. -/
def resultCatalog : UploadOutcome → Option UpdatesData
  | .error _ => none
  | .finished c _ => some c

/-! ### GitHubDeleterThread (delete transaction)

`GitHubDeleterThread.run` fetches `updates.json`, locates the entry (if
any), checks that the acting identity is an admin or the entry's author,
then deletes matching releases, matching tag refs, filters the entry out
of the catalog and pushes it back.  When the entry is absent and the
actor is not an admin, formatting the refusal message evaluates
`map_to_delete_info.get(...)` on `None`, raising `AttributeError`, which
the outer handler turns into an "unexpected error" emission — in every
unauthorized case the thread returns before any remote mutation. -/

/-- Errors emitted via `error_occurred` by the deleter paths modelled
here. -/
inductive DeleteError
  | updatesJsonMissing
  | notAuthorized (mapId : String) (author : String)
  | attributeErrorNoneAuthor (mapId : String)
deriving DecidableEq, Repr

/-- A remote mutation performed against GitHub during deletion. -/
inductive RemoteMutation
  | deleteRelease (tag : String)
  | deleteTagRef (tag : String)
  | writeCatalog (c : UpdatesData)
deriving DecidableEq, Repr

/-- Terminal result of `GitHubDeleterThread.run`: the remote mutations it
performed in order, the error it emitted (if any), and the
`deletion_finished` payload (if reached). -/
structure DeleteResult where
  mutations : List RemoteMutation
  error : Option DeleteError
  finishedId : Option String
deriving DecidableEq, Repr

/-- The tag prefix `map-{id}-` used to select releases and tags of a
map. -/
def mapTagStart (mapId : String) : String :=
  "map-" ++ mapId ++ "-"

/-- Python's `s.startswith(pat)`, character-structurally (so that it
evaluates inside the kernel). -/
def strStartsWith (s pat : String) : Bool :=
  List.isPrefixOf pat.data s.data

/-- Python's `s.endswith(pat)`. -/
def strEndsWith (s pat : String) : Bool :=
  List.isPrefixOf pat.data.reverse s.data.reverse

/-- `GitHubDeleterThread.run` after successful authentication.
`fetched` is the parsed `updates.json` (`none` models a 404);
`releases` and `tags` are the tag names of the repository's releases and
git tags.  Best-effort deletion failures of individual releases/tags are
not modelled (they only downgrade a mutation to a warning). -/
def deleterRun (login : String) (mapId : String)
    (fetched : Option UpdatesData) (releases : List String)
    (tags : List String) : DeleteResult :=
  match fetched with
  | none => { mutations := [], error := some .updatesJsonMissing, finishedId := none }
  | some updatesData =>
    let mapToDeleteInfo := findMapById (updatesData.maps.getD []) mapId
    let isAdmin := (updatesData.admins.getD []).contains login
    let isAuthor :=
      match mapToDeleteInfo with
      | some m => m.author == login
      | none => false
    if !isAdmin && !isAuthor then
      match mapToDeleteInfo with
      | some m =>
        { mutations := [], error := some (.notAuthorized mapId m.author),
          finishedId := none }
      | none =>
        { mutations := [], error := some (.attributeErrorNoneAuthor mapId),
          finishedId := none }
    else
      let releaseMuts := (releases.filter
        (fun t => strStartsWith t (mapTagStart mapId))).map RemoteMutation.deleteRelease
      let tagMuts := (tags.filter
        (fun t => strStartsWith t (mapTagStart mapId))).map RemoteMutation.deleteTagRef
      let newData :=
        match updatesData.maps with
        | some ms => { updatesData with
            maps := some (ms.filter (fun m => !(m.id == mapId))) }
        | none => updatesData
      { mutations := releaseMuts ++ tagMuts ++ [.writeCatalog newData],
        error := none, finishedId := some mapId }

/-! ### Map install download coordination (`install_map` and friends)

`install_map` starts one or two `FileDownloaderThread`s and tracks them
with `downloads_completed` / `expected_downloads`.  Each thread delivers
at most one terminal signal on the GUI thread: `download_finished`
(running `_on_map_download_finished` / `_on_rp_download_finished`, which
increment the counter and call `_process_downloads_complete`) or
`download_error` (running `_handle_map_download_error`, which shows the
error dialog, stops both downloaders and resets the counter).  A trace
is the order in which those terminal signals are processed; cancellation
is advisory, so a stopped sibling may or may not still deliver its own
terminal signal — validity only requires at most one signal per job. -/

/-- A terminal download signal processed on the GUI thread. -/
inductive DlEvent
  | finished (job : Nat)
  | failed (job : Nat)
deriving DecidableEq, Repr

/-- The job a signal belongs to. -/
def DlEvent.job : DlEvent → Nat
  | .finished j => j
  | .failed j => j

/-- Whether the signal is `download_error`. -/
def DlEvent.isFailed : DlEvent → Bool
  | .finished _ => false
  | .failed _ => true

/-- The launcher state touched by the download-completion handlers.
`installRuns` counts executions of the install step (the body of
`_process_downloads_complete` under `downloads_completed ==
expected_downloads`); `errorDialogs` counts executions of
`_handle_map_download_error`. -/
structure CoordState where
  expectedDownloads : Nat
  downloadsCompleted : Nat
  installRuns : Nat
  errorDialogs : Nat
  stopRequested : Bool
deriving DecidableEq, Repr

/-- State right after `install_map` started the jobs. -/
def initCoordState (n : Nat) : CoordState where
  expectedDownloads := n
  downloadsCompleted := 0
  installRuns := 0
  errorDialogs := 0
  stopRequested := false

/-- `_process_downloads_complete`: run the install step exactly when the
counter equals the expected count. -/
def processDownloadsComplete (s : CoordState) : CoordState :=
  if s.downloadsCompleted == s.expectedDownloads then
    { s with installRuns := s.installRuns + 1 }
  else s

/-- Processing one terminal signal: `_on_*_download_finished` increments
the counter and checks the barrier; `_handle_map_download_error` shows
the dialog, stops both downloaders and resets the counter. -/
def coordStep (s : CoordState) : DlEvent → CoordState
  | .finished _ =>
    processDownloadsComplete
      { s with downloadsCompleted := s.downloadsCompleted + 1 }
  | .failed _ =>
    { s with errorDialogs := s.errorDialogs + 1, stopRequested := true,
             downloadsCompleted := 0 }

/-- Process a whole trace of terminal signals for `n` expected
downloads. -/
def runCoord (n : Nat) (tr : List DlEvent) : CoordState :=
  tr.foldl coordStep (initCoordState n)

/-- A trace is valid for `n` jobs when every signal belongs to one of the
`n` jobs and no job delivers two terminal signals. -/
def validTrace (n : Nat) (tr : List DlEvent) : Prop :=
  (∀ e ∈ tr, DlEvent.job e < n) ∧ (tr.map DlEvent.job).Nodup

instance (n : Nat) (tr : List DlEvent) : Decidable (validTrace n tr) := by
  unfold validTrace
  infer_instance

/-! ### FileDownloaderThread (cancellable fetch)

`FileDownloaderThread.run` streams the response body chunk by chunk.
Between chunks it polls `self.is_running` (cleared asynchronously by
`stop()`); on a `false` reading it breaks out of the loop.  After the
loop, if `is_running` is still true it emits `download_finished`; if it
is false it deletes the partially written file — and emits nothing.
Progress-percentage emission (float arithmetic feeding the progress
bar) is not modelled.  -/

/-- Bytes of the HTTP body, pre-split into the chunks that
`iter_content` yields. -/
abbrev Chunks := List (List Nat)

/-- Observable result of `FileDownloaderThread.run`: the signals emitted
and the file left at the destination path (`none` when no file
remains). -/
structure FetchResult where
  finishedEmit : Option String
  errorEmit : Option String
  fileOnDisk : Option (List Nat)
deriving DecidableEq, Repr

/-- `FileDownloaderThread.run`.  `response` is the outcome of
`requests.get` (`Except.error` models a raised `RequestException`
before the file is opened); `cancelObservedAt` is `some k` when the
`is_running` flag reads `false` from the `k`-th between-chunk poll
onwards (and in the final check), `none` when `stop()` is never
called in time. -/
def fileDownloaderRun (destinationPath : String)
    (response : Except String Chunks)
    (cancelObservedAt : Option Nat) : FetchResult :=
  match response with
  | .error msg =>
    { finishedEmit := none, errorEmit := some ("Download error: " ++ msg),
      fileOnDisk := none }
  | .ok chunks =>
    match cancelObservedAt with
    | none =>
      { finishedEmit := some destinationPath, errorEmit := none,
        fileOnDisk := some (chunks.foldl (fun acc c => acc ++ c) []) }
    | some _ =>
      { finishedEmit := none, errorEmit := none, fileOnDisk := none }

/-! ### Launcher self-replacement (`_trigger_launcher_replacement`)

The whole replacement sequence — writing the helper script, marking it
executable, spawning it detached — sits in one `try` block whose last
statement is `QApplication.quit()`; the `except` branch shows the error,
sets the status label and re-enables the update button without ever
quitting. -/

/-- Observable outcome of `_trigger_launcher_replacement`. -/
structure ReplacementResult where
  quitCalled : Bool
  errorReported : Bool
  updateButtonReenabled : Bool
deriving DecidableEq, Repr

/-- `_trigger_launcher_replacement`, abstracting each fallible step of
the `try` block as a boolean (script write, `make_executable`, and the
detached `Popen` spawn). -/
def triggerLauncherReplacement (writeScriptOk chmodOk spawnOk : Bool) :
    ReplacementResult :=
  if writeScriptOk then
    if chmodOk then
      if spawnOk then
        { quitCalled := true, errorReported := false,
          updateButtonReenabled := false }
      else
        { quitCalled := false, errorReported := true,
          updateButtonReenabled := true }
    else
      { quitCalled := false, errorReported := true,
        updateButtonReenabled := true }
  else
    { quitCalled := false, errorReported := true,
      updateButtonReenabled := true }

/-! ### Update decision logic (`_check_launcher_update_logic`,
`_check_mod_update_logic`, `update_launcher`)

The launcher check triggers `update_launcher(auto_trigger=True)` by
itself as soon as the remote version is strictly greater; the mod check
only enables the "Update Mod" button (the download starts when the user
clicks it, via `update_mod`).  Neither flow contains a confirmation
dialog: the message boxes shown are informational, and the auto
triggered launcher path skips even those. -/

/-- Status label written by `_check_launcher_update_logic`. -/
inductive LauncherStatus
  | remoteInfoMissing
  | newVersionAvailable
  | upToDate
deriving DecidableEq, Repr

/-- Observable outcome of `_check_launcher_update_logic`:
`buttonEnabled` is `none` when the label is left untouched;
`selfUpdateTriggered` records the `update_launcher(auto_trigger=True)`
call. -/
structure LauncherCheckResult where
  status : LauncherStatus
  buttonEnabled : Option Bool
  selfUpdateTriggered : Bool
  returnValue : Bool
deriving DecidableEq, Repr

/-- `_check_launcher_update_logic`. -/
def checkLauncherUpdateLogic (remote : Option UpdatesData)
    (localVersion : String) : LauncherCheckResult :=
  match remote with
  | none =>
    { status := .remoteInfoMissing, buttonEnabled := none,
      selfUpdateTriggered := false, returnValue := false }
  | some d =>
    match d.launcher with
    | none =>
      { status := .remoteInfoMissing, buttonEnabled := none,
        selfUpdateTriggered := false, returnValue := false }
    | some launcherInfo =>
      if compareVersions launcherInfo.latest_version localVersion = .gt then
        { status := .newVersionAvailable, buttonEnabled := some true,
          selfUpdateTriggered := true, returnValue := true }
      else
        { status := .upToDate, buttonEnabled := some false,
          returnValue := false, selfUpdateTriggered := false }

/-- Observable outcome of `update_launcher`: whether a warning box was
shown, whether the download of the new executable was started, and
whether the user was asked to confirm first (the flow contains no
confirmation dialog at all — in auto-trigger mode even the
informational boxes before the download are skipped). -/
structure UpdateLauncherResult where
  warningShown : Bool
  confirmationRequested : Bool
  downloadStarted : Bool
deriving DecidableEq, Repr

/-- `update_launcher(auto_trigger)`. -/
def updateLauncher (remote : Option UpdatesData) (autoTrigger : Bool) :
    UpdateLauncherResult :=
  match remote with
  | none =>
    { warningShown := !autoTrigger, confirmationRequested := false,
      downloadStarted := false }
  | some d =>
    match d.launcher with
    | none =>
      { warningShown := !autoTrigger, confirmationRequested := false,
        downloadStarted := false }
    | some launcherInfo =>
      if launcherInfo.download_url == "" then
        { warningShown := !autoTrigger, confirmationRequested := false,
          downloadStarted := false }
      else
        { warningShown := false, confirmationRequested := false,
          downloadStarted := true }

/-- Status label written by `_check_mod_update_logic`. -/
inductive ModStatus
  | remoteInfoMissing
  | newVersionAvailable
  | upToDate
deriving DecidableEq, Repr

/-- Observable outcome of `_check_mod_update_logic`: it writes the
status label and toggles the "Update Mod" button; `downloadStarted`
records whether it starts any download or install step (the function
body contains no such call — a newer remote mod version only enables
the button for the user-confirmed `update_mod` path). -/
structure ModCheckResult where
  status : ModStatus
  buttonEnabled : Option Bool
  downloadStarted : Bool
deriving DecidableEq, Repr

/-- `_check_mod_update_logic`. -/
def checkModUpdateLogic (remote : Option UpdatesData)
    (localModVersion : String) : ModCheckResult :=
  match remote with
  | none =>
    { status := .remoteInfoMissing, buttonEnabled := none,
      downloadStarted := false }
  | some d =>
    match d.mod with
    | none =>
      { status := .remoteInfoMissing, buttonEnabled := none,
        downloadStarted := false }
    | some modInfo =>
      if compareVersions modInfo.latest_version localModVersion = .gt then
        { status := .newVersionAvailable, buttonEnabled := some true,
          downloadStarted := false }
      else
        { status := .upToDate, buttonEnabled := some false,
          downloadStarted := false }

/-! ### Mod installation (`_install_mod_from_temp`)

The method assigns `mods_dir = self.minecraft_paths['mods']` but then
iterates `os.listdir(mod_dir)` — `mod_dir` is not defined in this method,
in the enclosing class, or at module level, so the first loop statement
raises `NameError` before any old jar is removed or the new one moved.
The `except` branch shows the installation-error dialog; the `finally`
block deletes the downloaded temp file.  (The pre-package `main.py`
variant of the same method uses `mod_dir` consistently and performs the
cleanup + move; `installModFromTempIntended` models that intent.) -/

/-- The `MOD_FILE_PREFIX` constant of `constants.py`. -/
def MOD_FILE_PREFIX : String := "ZombieRool-"

/-- Errors surfaced by the mod install dialog. -/
inductive InstallModError
  | nameErrorModDirUndefined
deriving DecidableEq, Repr

/-- Observable outcome of `_install_mod_from_temp`. -/
structure InstallModResult where
  modsDirAfter : List String
  tempFileRemoved : Bool
  errorShown : Option InstallModError
  successShown : Bool
deriving DecidableEq, Repr

/-- `_install_mod_from_temp` as written in `launcher.py`: the
`os.listdir(mod_dir)` lookup raises `NameError` ('mod_dir' is not
defined) before the removal loop does anything, so the mods directory
is left unchanged, the error dialog is shown, and the temp file is
deleted by the `finally` block. -/
def installModFromTemp (modsDirFiles : List String)
    (_tempFileName : String) : InstallModResult where
  modsDirAfter := modsDirFiles
  tempFileRemoved := true
  errorShown := some .nameErrorModDirUndefined
  successShown := false

/-- The behaviour the method documents ("Deletes old mod versions",
then moves the new jar), as implemented by the `main.py` variant that
reads the directory it assigned: remove every
`MOD_FILE_PREFIX*...*.jar` file, then move the downloaded jar in. -/
def installModFromTempIntended (modsDirFiles : List String)
    (tempFileName : String) : InstallModResult where
  modsDirAfter :=
    (modsDirFiles.filter
      (fun f => !(strStartsWith f MOD_FILE_PREFIX && strEndsWith f ".jar")))
      ++ [tempFileName]
  tempFileRemoved := true
  errorShown := none
  successShown := true

/-! ### Concrete sample data (used to instantiate the theorems) -/

/-- Catalog entry `winter` v1.0.0 by `alice`. -/
def demoWinter : MapEntry where
  id := "winter"
  name := "Winter"
  latest_version := "1.0.0"
  download_url := "wu"
  description := "d"
  author := "alice"
  resourcepack_url := none

/-- A catalog whose `maps` array holds exactly `demoWinter` and whose
`admins` array is empty. -/
def demoCatalog : UpdatesData where
  launcher := none
  mod := none
  maps := some [demoWinter]
  content_packs := none
  admins := some []

/-- A republish of `winter` with the same version 1.0.0. -/
def demoRepublishSame : MapInfo where
  id := "winter"
  name := "Winter"
  latest_version := "1.0.0"
  description := "d"

/-- A republish of `winter` with the strictly greater version 1.1.0. -/
def demoRepublishNewer : MapInfo where
  id := "winter"
  name := "Winter"
  latest_version := "1.1.0"
  description := "d"

/-- A catalog like `demoCatalog` but with `root` in `admins`. -/
def demoAdminCatalog : UpdatesData where
  launcher := none
  mod := none
  maps := some [demoWinter]
  content_packs := none
  admins := some ["root"]

/-- A remote launcher section advertising version 9.9.9. -/
def demoLauncherInfo : LauncherInfo where
  latest_version := "9.9.9"
  download_url := "https-launcher-url"

/-- A remote mod section advertising version 9.9.9. -/
def demoModInfo : ModInfo where
  name := "ZombieRool"
  latest_version := "9.9.9"
  download_url := "https-mod-url"
  changelog_url := ""

/-- A remote document with both a newer launcher and a newer mod. -/
def demoRemote : UpdatesData where
  launcher := some demoLauncherInfo
  mod := some demoModInfo
  maps := none
  content_packs := none
  admins := none

/-! ## Theorems -/

/-- Swapping the arguments of the segment comparison swaps the result. -/
theorem compareSegments_swap (a b : List Nat) :
    compareSegments a b = (compareSegments b a).swap := by
  induction a generalizing b with
  | nil => cases b <;> rfl
  | cons x xs ih =>
    cases b with
    | nil => rfl
    | cons y ys =>
      simp only [compareSegments]
      rcases Nat.lt_trichotomy x y with h | h | h
      · simp [h, Nat.lt_asymm h, Ordering.swap]
      · subst h
        simp [Nat.lt_irrefl, ih]
      · simp [h, Nat.lt_asymm h, Ordering.swap]

/-- The strict order induced by the segment comparison is transitive. -/
theorem compareSegments_lt_trans {a b c : List Nat}
    (hab : compareSegments a b = .lt) (hbc : compareSegments b c = .lt) :
    compareSegments a c = .lt := by
  induction a generalizing b c with
  | nil =>
    cases c with
    | nil =>
      cases b with
      | nil => exact hab
      | cons y ys => simp [compareSegments] at hbc
    | cons z zs => rfl
  | cons x xs ih =>
    cases b with
    | nil => simp [compareSegments] at hab
    | cons y ys =>
      cases c with
      | nil => simp [compareSegments] at hbc
      | cons z zs =>
        simp only [compareSegments] at hab hbc ⊢
        rcases Nat.lt_trichotomy x y with hxy | hxy | hxy
        · rcases Nat.lt_trichotomy y z with hyz | hyz | hyz
          · simp [Nat.lt_trans hxy hyz]
          · subst hyz
            simp [hxy]
          · simp [Nat.lt_asymm hyz, hyz] at hbc
        · subst hxy
          simp only [Nat.lt_irrefl, if_false] at hab
          rcases Nat.lt_trichotomy x z with hyz | hyz | hyz
          · simp [hyz]
          · subst hyz
            simp only [Nat.lt_irrefl, if_false] at hbc ⊢
            exact ih hab hbc
          · simp [Nat.lt_asymm hyz, hyz] at hbc
        · simp [Nat.lt_asymm hxy, hxy] at hab

/-- `versionLe` is false exactly when the comparison is `gt`. -/
theorem versionLe_eq_false_iff (a b : String) :
    versionLe a b = false ↔ compareVersions a b = .gt := by
  unfold versionLe
  cases h : compareVersions a b <;> simp

/-- C9: Version comparison over dotted version strings is a total order —
for all strings `a` and `b`, `compare(a,b)` is the negation (swap) of
`compare(b,a)`, and the strict order is transitive — and comparison is
numeric component-wise, not lexicographic:
`compare("1.2.0","1.10.0") = LESS`. -/
theorem C9_version_compare_total_order :
    (∀ a b : String, compareVersions a b = (compareVersions b a).swap) ∧
    (∀ a b c : String,
      compareVersions a b = .lt → compareVersions b c = .lt →
        compareVersions a c = .lt) ∧
    compareVersions "1.2.0" "1.10.0" = .lt :=
  ⟨fun _ _ => compareSegments_swap _ _,
   fun _ _ _ hab hbc => compareSegments_lt_trans hab hbc,
   by rfl⟩

/-- Witness for C9 at concrete version strings. -/
theorem C9_version_compare_total_order_witness :
    compareVersions "1.2.0" "1.10.0" = (compareVersions "1.10.0" "1.2.0").swap ∧
    compareVersions "1.2.0" "1.11.0" = .lt :=
  ⟨C9_version_compare_total_order.1 "1.2.0" "1.10.0",
   C9_version_compare_total_order.2.1 "1.2.0" "1.10.0" "1.11.0" (by rfl) (by rfl)⟩

/-- Upserting an entry makes it findable under its id. -/
theorem findMapById_upsert (maps : List MapEntry) (e : MapEntry) :
    findMapById (upsertMapEntry maps e) e.id = some e := by
  induction maps with
  | nil => simp [upsertMapEntry, findMapById, List.find?]
  | cons m rest ih =>
    by_cases h : m.id == e.id
    · simp [upsertMapEntry, h, findMapById, List.find?]
    · simp only [upsertMapEntry, h, if_neg, Bool.false_eq_true, if_false]
      simpa [findMapById, List.find?, h] using ih

/-- C1: publishing a map whose id already has a catalog entry is rejected
with a version conflict whenever the new version is `<=` the existing
entry's version; a publish that goes through implies the new version is
strictly greater; and when it is strictly greater (and the release tag is
free) the publish replaces the entry in the catalog. -/
theorem C1_publish_version_conflict
    (login : String) (cat : UpdatesData) (tags : List String)
    (info : MapInfo) (mapUrl : String) (rp : Bool) (rpUrl : String)
    (m : MapEntry)
    (hfind : findMapById (cat.maps.getD []) info.id = some m) :
    (versionLe info.latest_version m.latest_version = true →
      uploaderRun login (some cat) tags (some cat) info mapUrl rp rpUrl =
        .error (.versionConflict info.id m.latest_version info.latest_version)) ∧
    (∀ c e, uploaderRun login (some cat) tags (some cat) info mapUrl rp rpUrl =
        .finished c e →
      compareVersions info.latest_version m.latest_version = .gt) ∧
    (compareVersions info.latest_version m.latest_version = .gt →
      tags.contains (releaseTag info) = false →
      uploaderRun login (some cat) tags (some cat) info mapUrl rp rpUrl =
        .finished
          { cat with maps := some (upsertMapEntry (cat.maps.getD [])
              (buildNewMapEntry login info mapUrl rp rpUrl)) }
          (buildNewMapEntry login info mapUrl rp rpUrl)) := by
  refine ⟨fun hle => ?_, fun c e hfin => ?_, fun hgt htag => ?_⟩
  · simp [uploaderRun, hfind, hle]
  · by_cases hle : versionLe info.latest_version m.latest_version
    · simp [uploaderRun, hfind, hle] at hfin
    · exact (versionLe_eq_false_iff _ _).mp (Bool.not_eq_true _ ▸ hle)
  · have hle : versionLe info.latest_version m.latest_version = false :=
      (versionLe_eq_false_iff _ _).mpr hgt
    have htag2 : releaseTag info ∉ tags := by simpa using htag
    simp [uploaderRun, hfind, hle, htag2, updateRemoteUpdatesJson]

/-- Witness for C1: republishing `winter` at the unchanged version 1.0.0
is rejected with a version conflict. -/
theorem C1_publish_version_conflict_witness :
    uploaderRun "alice" (some demoCatalog) [] (some demoCatalog)
        demoRepublishSame "u" false "" =
      .error (.versionConflict "winter" "1.0.0" "1.0.0") :=
  (C1_publish_version_conflict "alice" demoCatalog [] demoRepublishSame
    "u" false "" demoWinter (by rfl)).1 (by rfl)

/-- C2 counterexample: `winter` was first published by `alice`, yet after
`bob` republishes it at version 1.1.0 the catalog entry's `author` field
reads `bob`, not the original author `alice`. -/
theorem C2_author_preserved_counterexample :
    ((resultCatalog (uploaderRun "bob" (some demoCatalog) [] (some demoCatalog)
        demoRepublishNewer "u2" false "")).bind
      (fun c => (findMapById (c.maps.getD []) "winter").map MapEntry.author))
      = some "bob"
    ∧ demoWinter.author = "alice" ∧ ("bob" : String) ≠ "alice" :=
  ⟨by rfl, by rfl, by decide⟩

/-- C2 (amended): on every republish of an existing map id that passes the
version check, the catalog entry is updated in place, but its `author`
field afterwards equals the acting identity — `run` sets
`map_info['author']` to the authenticated login and the replacement entry
carries it, overwriting the original author. -/
theorem C2_republish_author_is_actor
    (login : String) (cat : UpdatesData) (tags : List String)
    (info : MapInfo) (mapUrl : String) (rp : Bool) (rpUrl : String)
    (m : MapEntry)
    (hfind : findMapById (cat.maps.getD []) info.id = some m)
    (hgt : compareVersions info.latest_version m.latest_version = .gt)
    (htag : tags.contains (releaseTag info) = false) :
    ((resultCatalog (uploaderRun login (some cat) tags (some cat) info
        mapUrl rp rpUrl)).bind
      (fun c => (findMapById (c.maps.getD []) info.id).map MapEntry.author))
      = some login := by
  have hfin := (C1_publish_version_conflict login cat tags info mapUrl rp
    rpUrl m hfind).2.2 hgt htag
  rw [hfin]
  have hid : (buildNewMapEntry login info mapUrl rp rpUrl).id = info.id := rfl
  have := findMapById_upsert (cat.maps.getD [])
    (buildNewMapEntry login info mapUrl rp rpUrl)
  rw [hid] at this
  have hauth : (buildNewMapEntry login info mapUrl rp rpUrl).author = login := rfl
  simp [resultCatalog, this, hauth]

/-- C3: a delete request by an actor who is neither the entry's author
nor listed in `admins` terminates with the authorization error and
performs zero remote mutations: no release deleted, no tag deleted, no
catalog write. -/
theorem C3_delete_unauthorized_no_mutation
    (login mapId : String) (cat : UpdatesData) (releases tags : List String)
    (m : MapEntry)
    (hfind : findMapById (cat.maps.getD []) mapId = some m)
    (hauthor : m.author ≠ login)
    (hadmin : (cat.admins.getD []).contains login = false) :
    deleterRun login mapId (some cat) releases tags =
      { mutations := [], error := some (.notAuthorized mapId m.author),
        finishedId := none } := by
  have hA : (m.author == login) = false := by
    simp [hauthor]
  have hadmin2 : login ∉ cat.admins.getD [] := by simpa using hadmin
  simp [deleterRun, hfind, hadmin2, hA]

/-- Witness for C3: `bob` (not the author `alice`, not an admin) cannot
delete `winter`, and nothing is mutated. -/
theorem C3_delete_unauthorized_no_mutation_witness :
    deleterRun "bob" "winter" (some demoCatalog) ["map-winter-v1.0.0"] [] =
      { mutations := [], error := some (.notAuthorized "winter" "alice"),
        finishedId := none } :=
  C3_delete_unauthorized_no_mutation "bob" "winter" demoCatalog
    ["map-winter-v1.0.0"] [] demoWinter (by rfl) (by decide) (by rfl)

/-- C8 counterexample: deleting the absent id `ghost` as the non-admin
`bob` does not proceed — the thread stops with an error (the
`AttributeError` raised while formatting the refusal message for a
`None` entry) and performs zero remote mutations, so no orphaned-release
cleanup happens. -/
theorem C8_absent_id_counterexample :
    (deleterRun "bob" "ghost" (some demoCatalog) ["map-ghost-v1.0.0"] []).error
        = some (.attributeErrorNoneAuthor "ghost") ∧
      (deleterRun "bob" "ghost" (some demoCatalog) ["map-ghost-v1.0.0"] []).mutations
        = [] :=
  ⟨by rfl, by rfl⟩

/-- C8 (amended): when the map id has no catalog entry, the delete
transaction proceeds to clean up orphaned releases and tags only if the
acting identity is listed in `admins`; for any other actor it terminates
with an error (the authorization check fails and the refusal-message
formatting crashes on the absent entry) and performs zero remote
mutations. -/
theorem C8_absent_id_admin_only
    (login mapId : String) (cat : UpdatesData) (releases tags : List String)
    (hfind : findMapById (cat.maps.getD []) mapId = none) :
    ((cat.admins.getD []).contains login = true →
      (deleterRun login mapId (some cat) releases tags).error = none ∧
        (deleterRun login mapId (some cat) releases tags).finishedId
          = some mapId) ∧
    ((cat.admins.getD []).contains login = false →
      deleterRun login mapId (some cat) releases tags =
        { mutations := [], error := some (.attributeErrorNoneAuthor mapId),
          finishedId := none }) := by
  constructor
  · intro hadm
    have hadm2 : login ∈ cat.admins.getD [] := by simpa using hadm
    constructor <;> simp [deleterRun, hfind, hadm2]
  · intro hadm
    have hadm2 : login ∉ cat.admins.getD [] := by simpa using hadm
    simp [deleterRun, hfind, hadm2]

/-- Witness for C8 (amended): the admin `root` deleting the absent id
`ghost` proceeds to the cleanup and finishes. -/
theorem C8_absent_id_admin_only_witness :
    (deleterRun "root" "ghost" (some demoAdminCatalog) [] []).error = none ∧
      (deleterRun "root" "ghost" (some demoAdminCatalog) [] []).finishedId
        = some "ghost" :=
  (C8_absent_id_admin_only "root" "ghost" demoAdminCatalog [] []
    (by rfl)).1 (by rfl)

/-- A `finished` signal always increments the completion counter by
one. -/
theorem coordStep_finished_completed (s : CoordState) (j : Nat) :
    (coordStep s (.finished j)).downloadsCompleted
      = s.downloadsCompleted + 1 := by
  simp only [coordStep, processDownloadsComplete]
  split <;> rfl

/-- A `finished` signal never shows an error dialog. -/
theorem coordStep_finished_errors (s : CoordState) (j : Nat) :
    (coordStep s (.finished j)).errorDialogs = s.errorDialogs := by
  simp only [coordStep, processDownloadsComplete]
  split <;> rfl

/-- A `finished` signal never requests cancellation. -/
theorem coordStep_finished_stop (s : CoordState) (j : Nat) :
    (coordStep s (.finished j)).stopRequested = s.stopRequested := by
  simp only [coordStep, processDownloadsComplete]
  split <;> rfl

/-- The expected download count is never changed by a signal. -/
theorem coordStep_expected (s : CoordState) (e : DlEvent) :
    (coordStep s e).expectedDownloads = s.expectedDownloads := by
  cases e with
  | finished j =>
    simp only [coordStep, processDownloadsComplete]
    split <;> rfl
  | failed j => rfl

/-- The install step runs on a `finished` signal exactly when the
incremented counter reaches the expected count. -/
theorem coordStep_finished_install (s : CoordState) (j : Nat) :
    (coordStep s (.finished j)).installRuns = s.installRuns +
      (if s.downloadsCompleted + 1 = s.expectedDownloads then 1 else 0) := by
  simp only [coordStep, processDownloadsComplete]
  by_cases h : s.downloadsCompleted + 1 = s.expectedDownloads <;> simp [h]

/-- Error dialogs are shown once per `failed` signal processed. -/
theorem foldl_coordStep_errors (tr : List DlEvent) (s : CoordState) :
    (tr.foldl coordStep s).errorDialogs
      = s.errorDialogs + tr.countP DlEvent.isFailed := by
  induction tr generalizing s with
  | nil => simp
  | cons e rest ih =>
    rw [List.foldl_cons, ih]
    cases e with
    | finished j =>
      rw [coordStep_finished_errors]
      simp [List.countP_cons, DlEvent.isFailed]
    | failed j =>
      simp only [coordStep]
      simp [List.countP_cons, DlEvent.isFailed]
      omega

/-- Once cancellation of the siblings has been requested it stays
requested. -/
theorem foldl_coordStep_stop_mono (tr : List DlEvent) (s : CoordState)
    (h : s.stopRequested = true) :
    (tr.foldl coordStep s).stopRequested = true := by
  induction tr generalizing s with
  | nil => exact h
  | cons e rest ih =>
    rw [List.foldl_cons]
    cases e with
    | finished j => exact ih _ ((coordStep_finished_stop s j).trans h)
    | failed j => exact ih _ rfl

/-- Any failure in the trace leaves the siblings cancelled. -/
theorem foldl_coordStep_stop_of_fail (tr : List DlEvent) (s : CoordState)
    (h : ∃ e ∈ tr, DlEvent.isFailed e = true) :
    (tr.foldl coordStep s).stopRequested = true := by
  induction tr generalizing s with
  | nil => simp at h
  | cons e rest ih =>
    rw [List.foldl_cons]
    cases e with
    | failed j => exact foldl_coordStep_stop_mono _ _ rfl
    | finished j =>
      rcases h with ⟨e2, he2, hf⟩
      rcases List.mem_cons.mp he2 with rfl | he2
      · simp [DlEvent.isFailed] at hf
      · exact ih _ ⟨e2, he2, hf⟩

/-- With only `finished` signals the completion counter just counts
them. -/
theorem foldl_coordStep_finished_completed (tr : List DlEvent)
    (s : CoordState) (hall : ∀ e ∈ tr, DlEvent.isFailed e = false) :
    (tr.foldl coordStep s).downloadsCompleted
      = s.downloadsCompleted + tr.length := by
  induction tr generalizing s with
  | nil => simp
  | cons e rest ih =>
    cases e with
    | failed j => simpa [DlEvent.isFailed] using hall _ (List.mem_cons_self _ _)
    | finished j =>
      rw [List.foldl_cons,
        ih _ (fun e2 he2 => hall e2 (List.mem_cons_of_mem _ he2)),
        coordStep_finished_completed]
      simp [List.length_cons]
      omega

/-- As long as fewer `finished` signals than expected can still arrive,
the install step never runs (this covers traces with failures: a failure
resets the counter and only lowers the bound). -/
theorem foldl_coordStep_no_install (tr : List DlEvent) (s : CoordState)
    (h : s.downloadsCompleted + tr.countP (fun e => !(DlEvent.isFailed e))
        < s.expectedDownloads) :
    (tr.foldl coordStep s).installRuns = s.installRuns := by
  induction tr generalizing s with
  | nil => simp
  | cons e rest ih =>
    rw [List.foldl_cons]
    cases e with
    | finished j =>
      have hcnt : (DlEvent.finished j :: rest).countP
          (fun e => !(DlEvent.isFailed e))
          = rest.countP (fun e => !(DlEvent.isFailed e)) + 1 := by
        simp [List.countP_cons, DlEvent.isFailed]
      rw [hcnt] at h
      have hne : s.downloadsCompleted + 1 ≠ s.expectedDownloads := by omega
      have hrec := ih (coordStep s (.finished j))
      rw [coordStep_finished_completed, coordStep_expected] at hrec
      rw [hrec (by omega), coordStep_finished_install, if_neg hne]
      omega
    | failed j =>
      have hcnt : (DlEvent.failed j :: rest).countP
          (fun e => !(DlEvent.isFailed e))
          = rest.countP (fun e => !(DlEvent.isFailed e)) := by
        simp [List.countP_cons, DlEvent.isFailed]
      rw [hcnt] at h
      exact ih _ (by simp [coordStep]; omega)

/-- In an all-`finished` trace that stays strictly below the expected
count the install step never runs. -/
theorem foldl_coordStep_install_lt (tr : List DlEvent) (s : CoordState)
    (hlt : s.downloadsCompleted + tr.length < s.expectedDownloads) :
    (tr.foldl coordStep s).installRuns = s.installRuns := by
  apply foldl_coordStep_no_install
  have : tr.countP (fun e => !(DlEvent.isFailed e)) ≤ tr.length :=
    List.countP_le_length _
  omega

/-- In an all-`finished` trace that exactly reaches the expected count
the install step runs exactly once, at the last signal. -/
theorem foldl_coordStep_install_eq (tr : List DlEvent) (s : CoordState)
    (hall : ∀ e ∈ tr, DlEvent.isFailed e = false) (hne : tr ≠ [])
    (heq : s.downloadsCompleted + tr.length = s.expectedDownloads) :
    (tr.foldl coordStep s).installRuns = s.installRuns + 1 := by
  induction tr generalizing s with
  | nil => exact absurd rfl hne
  | cons e rest ih =>
    cases e with
    | failed j => simpa [DlEvent.isFailed] using hall _ (List.mem_cons_self _ _)
    | finished j =>
      rw [List.foldl_cons]
      rcases List.eq_nil_or_concat rest with rfl | hne2
      · simp only [List.foldl_nil]
        rw [coordStep_finished_install, if_pos (by simpa using heq)]
      · have hrestne : rest ≠ [] := by
          rcases hne2 with ⟨l2, b, rfl⟩
          simp
        have hrec := ih (coordStep s (.finished j))
          (fun e2 he2 => hall e2 (List.mem_cons_of_mem _ he2)) hrestne
        rw [coordStep_finished_completed, coordStep_expected,
          coordStep_finished_install] at hrec
        have hlen : rest.length ≥ 1 := by
          rcases hne2 with ⟨l2, b, rfl⟩
          simp
        have hne3 : s.downloadsCompleted + 1 ≠ s.expectedDownloads := by
          simp only [List.length_cons] at heq
          omega
        rw [hrec (by simp only [List.length_cons] at heq; omega), if_neg hne3]

/-- A valid trace for `n` jobs has at most `n` signals. -/
theorem validTrace_length_le (n : Nat) (tr : List DlEvent)
    (h : validTrace n tr) : tr.length ≤ n := by
  have h1 : (tr.map DlEvent.job).Nodup := h.2
  have h2 : ∀ x ∈ tr.map DlEvent.job, x < n := by
    intro x hx
    rcases List.mem_map.mp hx with ⟨e, he, rfl⟩
    exact h.1 e he
  calc tr.length = (tr.map DlEvent.job).length := (List.length_map _ _).symm
    _ = (tr.map DlEvent.job).toFinset.card :=
        (List.toFinset_card_of_nodup h1).symm
    _ ≤ (Finset.range n).card := Finset.card_le_card
        (fun x hx => Finset.mem_range.mpr (h2 x (List.mem_toFinset.mp hx)))
    _ = n := Finset.card_range n

/-- The `finished` and `failed` signals of a trace partition it. -/
theorem countP_isFailed_partition (tr : List DlEvent) :
    tr.countP (fun e => !(DlEvent.isFailed e)) + tr.countP DlEvent.isFailed
      = tr.length := by
  induction tr with
  | nil => rfl
  | cons e rest ih =>
    cases e <;> simp [List.countP_cons, DlEvent.isFailed] at ih ⊢ <;> omega

/-- C4 counterexample: with two concurrent downloads both failing (the
second error signal was already queued when the first was handled — the
code has no first-failure-wins guard), `_handle_map_download_error` runs
twice, not exactly once; the install step still never runs. -/
theorem C4_double_failure_counterexample :
    validTrace 2 [DlEvent.failed 0, DlEvent.failed 1] ∧
      (runCoord 2 [DlEvent.failed 0, DlEvent.failed 1]).errorDialogs = 2 ∧
      (runCoord 2 [DlEvent.failed 0, DlEvent.failed 1]).installRuns = 0 :=
  ⟨by decide, by rfl, by rfl⟩

/-- C4 (amended): with N (1 or 2) downloads, in every valid signal order
the install step runs exactly once and only after all N downloads have
finished, and no error dialog is shown; if any download fails, the
siblings are cancelled, no install step ever runs, and the failure
callback fires once per failure signal delivered (so twice when both
downloads fail) rather than exactly once. -/
theorem C4_download_barrier (n : Nat) (tr : List DlEvent)
    (hn : n = 1 ∨ n = 2) (hv : validTrace n tr) :
    ((∀ e ∈ tr, DlEvent.isFailed e = false) → tr.length = n →
      (runCoord n tr).installRuns = 1 ∧
      (runCoord n tr).errorDialogs = 0 ∧
      (∀ p, p.length < n → p <+: tr → (runCoord n p).installRuns = 0)) ∧
    ((∃ e ∈ tr, DlEvent.isFailed e = true) →
      (runCoord n tr).installRuns = 0 ∧
      (runCoord n tr).stopRequested = true ∧
      (runCoord n tr).errorDialogs = tr.countP DlEvent.isFailed) := by
  have hn1 : 1 ≤ n := by rcases hn with rfl | rfl <;> omega
  constructor
  · intro hall hlen
    refine ⟨?_, ?_, ?_⟩
    · have := foldl_coordStep_install_eq tr (initCoordState n) hall
        (by intro hnil; rw [hnil] at hlen; simp at hlen; omega)
        (by simp [initCoordState, hlen])
      simpa [runCoord, initCoordState] using this
    · rw [runCoord, foldl_coordStep_errors,
        List.countP_eq_zero.mpr (by intro e he; simp [hall e he])]
      rfl
    · intro p hp hpfx
      have := foldl_coordStep_install_lt p (initCoordState n)
        (by simp [initCoordState]; omega)
      simpa [runCoord, initCoordState] using this
  · intro hfail
    have hcount : 0 < tr.countP DlEvent.isFailed :=
      List.countP_pos_iff.mpr hfail
    have hlen := validTrace_length_le n tr hv
    have hpart := countP_isFailed_partition tr
    refine ⟨?_, foldl_coordStep_stop_of_fail tr _ hfail, ?_⟩
    · have := foldl_coordStep_no_install tr (initCoordState n)
        (by simp only [initCoordState]; omega)
      simpa [runCoord, initCoordState] using this
    · rw [runCoord, foldl_coordStep_errors]
      simp [initCoordState]

/-- Witness for C4 (amended): two downloads finishing in order trigger
the install step exactly once. -/
theorem C4_download_barrier_witness :
    (runCoord 2 [DlEvent.finished 0, DlEvent.finished 1]).installRuns = 1 :=
  ((C4_download_barrier 2 [DlEvent.finished 0, DlEvent.finished 1]
      (Or.inr rfl) (by decide)).1 (by decide) (by rfl)).1

/-- C5 counterexample: a download whose cancellation flag is observed
after the first chunk deletes the partial file and never reports
success, but no `Cancelled` (or any other) error is returned to the
caller either — the thread ends without emitting any signal. -/
theorem C5_cancel_counterexample :
    fileDownloaderRun "dest" (.ok [[1], [2]]) (some 1) =
      { finishedEmit := none, errorEmit := none, fileOnDisk := none } :=
  rfl

/-- C5 (amended): for every download cancelled via the cooperative
cancellation flag, the partially written destination file is deleted and
success is never reported; however no error signal is emitted either —
the fetch ends silently, leaving no half-written artifact. -/
theorem C5_cancel_no_artifact_no_signal (destinationPath : String)
    (chunks : Chunks) (k : Nat) :
    fileDownloaderRun destinationPath (.ok chunks) (some k) =
      { finishedEmit := none, errorEmit := none, fileOnDisk := none } :=
  rfl

/-- C6: when the helper script is successfully written, marked
executable and spawned detached, the parent terminates itself
(`QApplication.quit`); when script creation or spawning fails, the
parent does not quit, reports the error, and leaves the old executable
running with the update button re-enabled. -/
theorem C6_self_replace_quit_semantics (writeScriptOk chmodOk spawnOk : Bool) :
    (writeScriptOk = true → chmodOk = true → spawnOk = true →
      triggerLauncherReplacement writeScriptOk chmodOk spawnOk =
        { quitCalled := true, errorReported := false,
          updateButtonReenabled := false }) ∧
    (writeScriptOk = false ∨ spawnOk = false →
      (triggerLauncherReplacement writeScriptOk chmodOk spawnOk).quitCalled
          = false ∧
        (triggerLauncherReplacement writeScriptOk chmodOk spawnOk).errorReported
          = true ∧
        (triggerLauncherReplacement writeScriptOk chmodOk
          spawnOk).updateButtonReenabled = true) := by
  constructor
  · rintro rfl rfl rfl
    rfl
  · rintro (rfl | rfl)
    · exact ⟨rfl, rfl, rfl⟩
    · cases writeScriptOk <;> cases chmodOk <;> exact ⟨rfl, rfl, rfl⟩

/-- Witness for C6: all steps succeeding makes the parent quit without
reporting an error. -/
theorem C6_self_replace_quit_semantics_witness :
    triggerLauncherReplacement true true true =
      { quitCalled := true, errorReported := false,
        updateButtonReenabled := false } :=
  (C6_self_replace_quit_semantics true true true).1 rfl rfl rfl

/-- C7: a strictly newer remote launcher version makes the check trigger
the self-update flow at once — `update_launcher` in auto mode requests
no confirmation and starts the download whenever a URL is present —
while a strictly newer remote mod version never auto-applies: the mod
check starts no download and only enables the user-confirmed update
button. -/
theorem C7_launcher_auto_mod_manual (d : UpdatesData)
    (launcherInfo : LauncherInfo) (modInfo : ModInfo)
    (localLauncherVersion localModVersion : String)
    (hl : d.launcher = some launcherInfo)
    (hm : d.mod = some modInfo)
    (hgt : compareVersions launcherInfo.latest_version localLauncherVersion
      = .gt)
    (hgtm : compareVersions modInfo.latest_version localModVersion = .gt) :
    (checkLauncherUpdateLogic (some d) localLauncherVersion).selfUpdateTriggered
        = true ∧
      (updateLauncher (some d) true).confirmationRequested = false ∧
      (launcherInfo.download_url ≠ "" →
        (updateLauncher (some d) true).downloadStarted = true) ∧
      (checkModUpdateLogic (some d) localModVersion).downloadStarted = false ∧
      (checkModUpdateLogic (some d) localModVersion).buttonEnabled
        = some true := by
  refine ⟨?_, ?_, ?_, ?_, ?_⟩
  · simp [checkLauncherUpdateLogic, hl, hgt]
  · simp only [updateLauncher, hl]
    split <;> rfl
  · intro hurl
    simp [updateLauncher, hl, hurl]
  · simp only [checkModUpdateLogic, hm]
    split <;> rfl
  · simp [checkModUpdateLogic, hm, hgtm]

/-- Witness for C7 at a concrete remote document and local versions. -/
theorem C7_launcher_auto_mod_manual_witness :
    (checkLauncherUpdateLogic (some demoRemote) "4.2.0").selfUpdateTriggered
        = true ∧
      (checkModUpdateLogic (some demoRemote) "1.3.0").downloadStarted
        = false :=
  ⟨(C7_launcher_auto_mod_manual demoRemote demoLauncherInfo demoModInfo
      "4.2.0" "1.3.0" rfl rfl (by rfl) (by rfl)).1,
   (C7_launcher_auto_mod_manual demoRemote demoLauncherInfo demoModInfo
      "4.2.0" "1.3.0" rfl rfl (by rfl) (by rfl)).2.2.2.1⟩

/-- C10 (code bug): after a successful mod download with a configured
mods directory, `_install_mod_from_temp` raises `NameError` on the
undefined `mod_dir` before touching the mods directory: the old
prefix-matching jar stays, the new jar is never moved in (its temp copy
is deleted by the cleanup), and the error dialog is shown.  The intended
behaviour — implemented by the `main.py` variant of the method — would
leave exactly the single new jar. -/
theorem C10_install_mod_name_error :
    installModFromTemp ["ZombieRool-1.2.0.jar"] "ZombieRool-1.3.0.jar" =
      { modsDirAfter := ["ZombieRool-1.2.0.jar"], tempFileRemoved := true,
        errorShown := some .nameErrorModDirUndefined, successShown := false } ∧
    (installModFromTempIntended ["ZombieRool-1.2.0.jar"]
      "ZombieRool-1.3.0.jar").modsDirAfter = ["ZombieRool-1.3.0.jar"] :=
  ⟨rfl, by decide⟩

/-- Witness for C2 (amended): `bob` republishing `winter` v1.1.0 ends with
`bob` as the recorded author. -/
theorem C2_republish_author_is_actor_witness :
    ((resultCatalog (uploaderRun "bob" (some demoCatalog) [] (some demoCatalog)
        demoRepublishNewer "u2" false "")).bind
      (fun c => (findMapById (c.maps.getD []) "winter").map MapEntry.author))
      = some "bob" :=
  C2_republish_author_is_actor "bob" demoCatalog [] demoRepublishNewer
    "u2" false "" demoWinter (by rfl) (by rfl) (by rfl)

end ZombieRool
